import Mathlib

/-!
Shallow embedding of the yaml-resume generator: `src/resume.py` (the pydantic
schema) and `src/main.py` (the LaTeX document assembler).  Pydantic models
become structures with `Option` for optional fields; `doc.append` side effects
become lists of emitted `Tex` nodes; Python `raise RuntimeError()` becomes
`Except.error ()`.
-/

namespace YamlResume

/-- A calendar date (`datetime.date`): year, month, day.  The day is carried
but never rendered (`strftime "%m/%Y"` only shows month and year). -/
structure Date where
  year : Nat
  month : Nat
  day : Nat
deriving DecidableEq

/-- `Location` model of resume.py. -/
structure Location where
  address : Option String := none
  postal_code : Option String := none
  city : String
  country_code : String
  region : String
deriving DecidableEq

/-- `Profile` model of resume.py. -/
structure Profile where
  network : String
  username : String
  url : String
deriving DecidableEq

/-- `Basics` model of resume.py. -/
structure Basics where
  name : String
  label : Option String
  email : String
  phone : String
  url : Option String
  summary : Option String
  location : Option Location
  profiles : Option (List Profile)
deriving DecidableEq

/-- `Work` model of resume.py. -/
structure Work where
  name : String
  position : String
  url : Option String := none
  start_date : Date
  end_date : Option Date := none
  summary : Option String := none
  highlights : List String
  location : Option Location := none
deriving DecidableEq

/-- `Education` model of resume.py. -/
structure Education where
  institution : String
  url : Option String := none
  area : String
  sub_area : Option String := none
  study_type : String
  start_date : Date
  end_date : Option Date := none
  score : Option String := none
  courses : List String
  location : Option Location := none
deriving DecidableEq

/-- `Certificate` model of resume.py. -/
structure Certificate where
  name : String
  date : Date
  issuer : String
  summary : String
  url : Option String := none
deriving DecidableEq

/-- `Award` model of resume.py. -/
structure Award where
  name : String
  date : Date
  awarder : String
  summary : String
  url : Option String := none
deriving DecidableEq

/-- `Skill` model of resume.py. -/
structure Skill where
  name : String
  level : Option String := none
  keywords : List String
deriving DecidableEq

/-- `Language` model of resume.py. -/
structure Language where
  language : String
  fluency : String
deriving DecidableEq

/-- `Interest` model of resume.py. -/
structure Interest where
  name : String
  keywords : List String
deriving DecidableEq

/-- `Project` model of resume.py. -/
structure Project where
  name : String
  start_date : Date
  end_date : Option Date := none
  summary : Option String := none
  highlights : Option (List String) := none
  url_text : Option String := none
  url : Option String := none
deriving DecidableEq

/-- `Resume` model of resume.py. -/
structure Resume where
  basics : Basics
  work : Option (List Work) := none
  education : Option (List Education) := none
  certificates : Option (List Certificate) := none
  awards : Option (List Award) := none
  skills : Option (List Skill) := none
  languages : Option (List Language) := none
  interests : Option (List Interest) := none
  projects : Option (List Project) := none
deriving DecidableEq

/-- The pylatex content tree, restricted to the constructors main.py uses.
`sec` is a `Section` environment (name, contents); `huge` / `large` are
`HugeText` / `LargeText`; `adjw` is the `AdjustWidth` environment
(leftmargin, rightmargin, contents); `cmd` is `Command(name, arguments)`;
`tabular` carries the column spec and the single row of cells main.py adds. -/
inductive Tex where
  | text : String → Tex
  | noescape : String → Tex
  | bold : String → Tex
  | italic : String → Tex
  | cmd : String → List String → Tex
  | hspace : String → Tex
  | vspace : String → Tex
  | newline : Tex
  | textcolor : String → Tex → Tex
  | tabular : String → List Tex → Tex
  | itemize : List Tex → Tex
  | adjw : String → String → List Tex → Tex
  | center : List Tex → Tex
  | huge : List Tex → Tex
  | large : List Tex → Tex
  | sec : String → List Tex → Tex

/-- `DETAIL_INDENT` constant of main.py. -/
def DETAIL_INDENT : String := "0.25in"

/-- `RESOURCE_MAP` constant of main.py (an insertion-ordered dict). -/
def RESOURCE_MAP : List (String × String) :=
  [("github", "resources/github.png"),
   ("linkedin", "resources/in.png"),
   ("phone", "resources/phone.png"),
   ("mail", "resources/mail.png"),
   ("home", "resources/home.png"),
   ("web", "resources/web.png")]

/-- Python dict indexing `RESOURCE_MAP[key]` (total at every call site of
main.py, since the key is either a literal or a key proved present). -/
def resourceGet (key : String) : String :=
  ((RESOURCE_MAP.lookup key).getD "")

/-- `RESOURCE_MAP.keys()`. -/
def RESOURCE_MAP_keys : List String := RESOURCE_MAP.map Prod.fst

/-- Python `str.strip()`: remove leading and trailing whitespace. -/
def pyStrip (s : String) : String :=
  ⟨((s.toList.dropWhile Char.isWhitespace).reverse.dropWhile
      Char.isWhitespace).reverse⟩

/-- Python `str.lower()` (ASCII case folding, which covers every
`RESOURCE_MAP` key). -/
def pyLower (s : String) : String :=
  ⟨s.toList.map Char.toLower⟩

/-- Accumulator loop for `pySplitWs`. -/
def splitWsAux : List Char → List Char → List String
  | [], acc => if acc.isEmpty then [] else [⟨acc.reverse⟩]
  | c :: cs, acc =>
      if c.isWhitespace then
        (if acc.isEmpty then [] else [⟨acc.reverse⟩]) ++ splitWsAux cs []
      else splitWsAux cs (c :: acc)

/-- Python `str.split()` with no argument: split on runs of whitespace,
dropping empty pieces. -/
def pySplitWs (s : String) : List String := splitWsAux s.toList []

/-- Python `sep.join(parts)`. -/
def strJoin (sep : String) : List String → String
  | [] => ""
  | [x] => x
  | x :: y :: xs => x ++ sep ++ strJoin sep (y :: xs)

/-- Python `str()` of an `Optional[str]` as interpolated by an f-string:
`None` prints as the literal text "None". -/
def pystr : Option String → String
  | none => "None"
  | some s => s

/-- Zero-padding to two digits, as strftime `%m` does. -/
def pad2 (n : Nat) : String := if n < 10 then "0" ++ toString n else toString n

/-- Zero-padding to four digits, as strftime `%Y` does on glibc. -/
def pad4 (n : Nat) : String :=
  if n < 10 then "000" ++ toString n
  else if n < 100 then "00" ++ toString n
  else if n < 1000 then "0" ++ toString n
  else toString n

/-- `format_me.strftime("%m/%Y")` from `format_time_range`. -/
def format_date (d : Date) : String := pad2 d.month ++ "/" ++ pad4 d.year

/-- A pylatex `Command` value in the places where main.py calls `.dumps()` on
it to splice its LaTeX text into a string (contact cells, profile cells). -/
structure PyCommand where
  name : String
  arguments : List String := []
  options : Option String := none
deriving DecidableEq

/-- `Command.dumps()`: `\name[options]{arg1}{arg2}...`. -/
def PyCommand.dumps (c : PyCommand) : String :=
  "\\" ++ c.name ++
    (match c.options with
     | none => ""
     | some o => "[" ++ o ++ "]") ++
    String.join (c.arguments.map fun a => "\x7b" ++ a ++ "\x7d")

/-- `generate_image_inline` of main.py: an `\includegraphics` command with the
fixed height option. -/
def generate_image_inline (resource_path : String) : PyCommand :=
  { name := "includegraphics"
    arguments := [resource_path]
    options := some "height=\\fontcharht\\font`\\B" }

/-- `format_location` of main.py: raises on an absent location, else
`f"{location.city}, {location.region}"`. -/
def format_location : Option Location → Except Unit String
  | none => .error ()
  | some location => .ok (location.city ++ ", " ++ location.region)

/-- `format_profile` of main.py: raises on an absent profile; otherwise
resolves the icon by the lowercased, stripped network name with fallback
`"web"`, and returns an `\href` command. -/
def format_profile : Option Profile → Except Unit Tex
  | none => .error ()
  | some profile =>
    let link_text := profile.network ++ "/" ++ profile.username
    let resource_name :=
      if RESOURCE_MAP_keys.contains (pyLower (pyStrip profile.network)) then
        pyLower (pyStrip profile.network)
      else "web"
    .ok (Tex.cmd "href"
      [profile.url,
       (generate_image_inline (resourceGet resource_name)).dumps ++ " " ++ link_text])

/-- `format_time_range` of main.py. -/
def format_time_range (start : Date) (end_ : Option Date) (is_instant : Bool) :
    String :=
  if is_instant then format_date start
  else
    match end_ with
    | none => format_date start ++ " - present"
    | some e => format_date start ++ " - " ++ format_date e

/-- `Link` dataclass of main.py. -/
structure Link where
  text : String
  ref : String
deriving DecidableEq

/-- `EntryGenerator` of main.py: the attribute bag configured before
`generate` is called. -/
structure EntryGenerator where
  title : String
  context : Option String := none
  location : Option Location := none
  start_date : Date
  end_date : Option Date := none
  link : Option Link := none
  summary : Option String := none
  highlights : Option (List String) := none
  is_instant : Bool := false
deriving DecidableEq

/-- `EntryGenerator.generate` of main.py: the sequence of nodes appended to
the document (title, optional context, optional link, `\hfill`, optional
location, time range, optional indented summary/highlights block). -/
def EntryGenerator.generate (g : EntryGenerator) : Except Unit (List Tex) := do
  let locPart ←
    match g.location with
    | some l => do
        let s ← format_location (some l)
        pure [Tex.bold s, Tex.hspace "6pt"]
    | none => pure ([] : List Tex)
  pure
    ([Tex.bold g.title] ++
     (match g.context with
      | some c => [Tex.text ", ", Tex.italic c]
      | none => []) ++
     (match g.link with
      | some l => [Tex.hspace "6pt",
                   Tex.textcolor "blue" (Tex.cmd "href" [l.ref, l.text])]
      | none => []) ++
     [Tex.cmd "hfill" []] ++
     locPart ++
     [Tex.italic (format_time_range g.start_date g.end_date g.is_instant)] ++
     (if g.summary.isSome || g.highlights.isSome then
        [Tex.adjw DETAIL_INDENT "0in"
          ((match g.summary with
            | some s => [Tex.text s]
            | none => []) ++
           (match g.highlights with
            | some hs => [Tex.itemize (hs.map Tex.text)]
            | none => []))]
      else []))

/-- The pure value `EntryGenerator.generate` always succeeds with (the only
fallible step, `format_location`, is always called on a present location). -/
def entryItems (g : EntryGenerator) : List Tex :=
  [Tex.bold g.title] ++
  (match g.context with
   | some c => [Tex.text ", ", Tex.italic c]
   | none => []) ++
  (match g.link with
   | some l => [Tex.hspace "6pt",
                Tex.textcolor "blue" (Tex.cmd "href" [l.ref, l.text])]
   | none => []) ++
  [Tex.cmd "hfill" []] ++
  (match g.location with
   | some l => [Tex.bold (l.city ++ ", " ++ l.region), Tex.hspace "6pt"]
   | none => []) ++
  [Tex.italic (format_time_range g.start_date g.end_date g.is_instant)] ++
  (if g.summary.isSome || g.highlights.isSome then
     [Tex.adjw DETAIL_INDENT "0in"
       ((match g.summary with
         | some s => [Tex.text s]
         | none => []) ++
        (match g.highlights with
         | some hs => [Tex.itemize (hs.map Tex.text)]
         | none => []))]
   else [])

theorem EntryGenerator.generate_eq (g : EntryGenerator) :
    g.generate = Except.ok (entryItems g) := by
  obtain ⟨t, c, loc, sd, ed, lk, sm, hl, ii⟩ := g
  cases loc <;> rfl

/-- `generate_section_title` of main.py: vertical space, the name in bold
inside a `LargeText`, more space, `\hrule`, more space. -/
def generate_section_title (section_name : String) : List Tex :=
  [Tex.vspace ".1in",
   Tex.large [Tex.cmd "textbf" [section_name]],
   Tex.vspace ".05in",
   Tex.cmd "hrule" [],
   Tex.vspace "0.05in"]

/-- The `EntryGenerator` configured inside the `generate_education` loop. -/
def eduGen (education : Education) : EntryGenerator :=
  { title := education.study_type
    start_date := education.start_date
    context := some education.institution
    location := education.location
    end_date := education.end_date
    summary := some (strJoin "\n"
      ["Area of study: " ++ education.area,
       "Concentration: " ++ pystr education.sub_area,
       "Final result: " ++ pystr education.score,
       "Relevant coursework: " ++ strJoin ", " education.courses]) }

/-- `generate_education` of main.py. -/
def generate_education (education_list : List Education) :
    Except Unit (List Tex) := do
  let entries ← education_list.mapM fun education => (eduGen education).generate
  pure [Tex.sec "Education" (generate_section_title "Education" ++ entries.flatten)]

/-- The `EntryGenerator` configured inside the `generate_experience` loop. -/
def workGen (work : Work) : EntryGenerator :=
  { title := work.position
    start_date := work.start_date
    context := some work.name
    location := work.location
    end_date := work.end_date
    highlights := some work.highlights }

/-- `generate_experience` of main.py. -/
def generate_experience (work_list : List Work) : Except Unit (List Tex) := do
  let entries ← work_list.mapM fun work => (workGen work).generate
  pure [Tex.sec "Experience" (generate_section_title "Experience" ++ entries.flatten)]

/-- The `EntryGenerator` configured inside the `generate_projects` loop. -/
def projGen (project : Project) : EntryGenerator :=
  { title := project.name
    start_date := project.start_date
    end_date := project.end_date
    summary := project.summary
    link :=
      match project.url with
      | some u =>
        some { text :=
                 (match project.url_text with
                  | none => "(link)"
                  | some t => t)
               ref := u }
      | none => none }

/-- `generate_projects` of main.py. -/
def generate_projects (projects : List Project) : Except Unit (List Tex) := do
  let entries ← projects.mapM fun project => (projGen project).generate
  pure [Tex.sec "Projects" (generate_section_title "Projects" ++ entries.flatten)]

/-- The `EntryGenerator` configured for a `Certificate` item inside the
`generate_certifications_and_awards` loop. -/
def certGen (item : Certificate) : EntryGenerator :=
  { title := item.name
    start_date := item.date
    is_instant := true
    summary := some item.summary }

/-- The `EntryGenerator` configured for an `Award` item inside the
`generate_certifications_and_awards` loop (the two `isinstance` branches of
main.py are textually identical). -/
def awardGen (item : Award) : EntryGenerator :=
  { title := item.name
    start_date := item.date
    is_instant := true
    summary := some item.summary }

/-- `generate_certifications_and_awards` of main.py.  Note the source's title
selection: `if certifications is None` picks "Certifications" and
`elif awards is None` picks "Awards". -/
def generate_certifications_and_awards
    (certifications : Option (List Certificate)) (awards : Option (List Award)) :
    Except Unit (List Tex) := do
  let section_title :=
    match certifications with
    | none => "Certifications"
    | some _ =>
      match awards with
      | none => "Awards"
      | some _ => "Certifications & Awards"
  let to_process : List (Certificate ⊕ Award) :=
    (match certifications with
     | some cs => cs.map Sum.inl
     | none => []) ++
    (match awards with
     | some aws => aws.map Sum.inr
     | none => [])
  let entries ← to_process.mapM fun item =>
    match item with
    | Sum.inl c => (certGen c).generate
    | Sum.inr a => (awardGen a).generate
  pure [Tex.sec "Certifications & Awards"
    (generate_section_title section_title ++ entries.flatten)]

/-- One line of the `generate_skills` loop. -/
def skillLine (skill : Skill) : List Tex :=
  [Tex.italic skill.name, Tex.text ": ",
   Tex.text (strJoin ", " skill.keywords), Tex.newline]

/-- `generate_skills` of main.py. -/
def generate_skills (skills : List Skill) : List Tex :=
  [Tex.sec "Skills" (generate_section_title "Skills" ++ (skills.map skillLine).flatten)]

/-- `generate_contact_info` of main.py: a three-column table whose cells are
icon + phone, icon + mailto link, icon + formatted home location. -/
def generate_contact_info (resume : Resume) : Except Unit (List Tex) := do
  let loc ← format_location resume.basics.location
  pure [Tex.tabular "c | c | c"
    [Tex.noescape
       ((generate_image_inline (resourceGet "phone")).dumps ++ " " ++
        resume.basics.phone),
     Tex.noescape
       ((generate_image_inline (resourceGet "mail")).dumps ++ " " ++
        (PyCommand.dumps
          { name := "href"
            arguments := ["mailto:" ++ resume.basics.email,
                          resume.basics.email] })),
     Tex.noescape
       ((generate_image_inline (resourceGet "home")).dumps ++ " " ++ loc)]]

/-- `generate_profiles` of main.py: only when the profiles list is present, a
one-row table with one column per profile. -/
def generate_profiles (resume : Resume) : Except Unit (List Tex) :=
  match resume.basics.profiles with
  | none => pure []
  | some profiles => do
    let cells ← profiles.mapM fun p => format_profile (some p)
    pure [Tex.tabular (strJoin " | " (List.replicate profiles.length "c")) cells]

/-- `generate_header` of main.py: `\makecvtitle`, then a centered block with
the name in huge bold, the contact table and the profiles table. -/
def generate_header (resume : Resume) : Except Unit (List Tex) := do
  let contact ← generate_contact_info resume
  let profs ← generate_profiles resume
  pure ([Tex.cmd "makecvtitle" []] ++
    [Tex.center
      ([Tex.huge [Tex.cmd "textbf" [resume.basics.name]], Tex.cmd "break" []] ++
       contact ++ [Tex.cmd "break" []] ++ profs)])

/-- `generate_body` of main.py: each section gated on presence of its list;
the certifications section gated on either list being present. -/
def generate_body (resume : Resume) : Except Unit (List Tex) := do
  let edu ←
    match resume.education with
    | some l => generate_education l
    | none => pure []
  let work ←
    match resume.work with
    | some l => generate_experience l
    | none => pure []
  let projects ←
    match resume.projects with
    | some l => generate_projects l
    | none => pure []
  let certs ←
    if resume.certificates.isSome || resume.awards.isSome then
      generate_certifications_and_awards resume.certificates resume.awards
    else pure []
  let skills :=
    match resume.skills with
    | some l => generate_skills l
    | none => ([] : List Tex)
  pure (edu ++ work ++ projects ++ certs ++ skills)

/-- The assembled pylatex `Document`: the custom preamble commands and the
appended content.  The fixed documentclass / geometry options carry no input
data and are not modelled. -/
structure Document where
  preamble : List Tex
  body : List Tex

/-- `generate_doc` of main.py. -/
def generate_doc (resume : Resume) : Except Unit Document := do
  let name_command := Tex.cmd "name" (pySplitWs resume.basics.name)
  let header ← generate_header resume
  let body ← generate_body resume
  pure
    { preamble := [Tex.cmd "moderncvstyle" ["empty"],
                   Tex.cmd "moderncvcolor" ["black"],
                   name_command]
      body := header ++ body }

/-! ### String extraction and evaluation lemmas -/

mutual
/-- All data strings carried by one pylatex node (command arguments included;
pure layout parameters such as spacing amounts and column specs excluded). -/
def texStrings : Tex → List String
  | .text s => [s]
  | .noescape s => [s]
  | .bold s => [s]
  | .italic s => [s]
  | .cmd _ args => args
  | .hspace _ => []
  | .vspace _ => []
  | .newline => []
  | .textcolor _ t => texStrings t
  | .tabular _ cells => texsStrings cells
  | .itemize ts => texsStrings ts
  | .adjw _ _ ts => texsStrings ts
  | .center ts => texsStrings ts
  | .huge ts => texsStrings ts
  | .large ts => texsStrings ts
  | .sec _ ts => texsStrings ts

/-- All data strings carried by a list of pylatex nodes, in order. -/
def texsStrings : List Tex → List String
  | [] => []
  | t :: ts => texStrings t ++ texsStrings ts
end

theorem texsStrings_append (a b : List Tex) :
    texsStrings (a ++ b) = texsStrings a ++ texsStrings b := by
  induction a with
  | nil => rfl
  | cons t ts ih => simp [texsStrings, ih]

theorem texsStrings_flatten (L : List (List Tex)) :
    texsStrings L.flatten = (L.map texsStrings).flatten := by
  induction L with
  | nil => rfl
  | cons x xs ih => simp [List.flatten_cons, texsStrings_append, ih]

/-- The accumulator loop of `List.mapM` succeeds with the pointwise map when
`f` always succeeds. -/
theorem mapM_loop_eq {α β : Type} (f : α → Except Unit β) (fp : α → β)
    (h : ∀ a, f a = Except.ok (fp a)) (l : List α) (acc : List β) :
    List.mapM.loop f l acc = Except.ok (acc.reverse ++ l.map fp) := by
  induction l generalizing acc with
  | nil =>
      show (pure acc.reverse : Except Unit (List β)) = _
      simp
      rfl
  | cons a t ih =>
      show (f a >>= fun b => List.mapM.loop f t (b :: acc)) = _
      rw [h a]
      show List.mapM.loop f t (fp a :: acc) = _
      rw [ih]
      simp

/-- `l.mapM f` succeeds with the pointwise map when `f` always succeeds. -/
theorem mapM_map {α β : Type} (f : α → Except Unit β) (fp : α → β)
    (h : ∀ a, f a = Except.ok (fp a)) (l : List α) :
    l.mapM f = Except.ok (l.map fp) := by
  show List.mapM.loop f l [] = _
  rw [mapM_loop_eq f fp h l []]
  rfl

/-- Pure value of `generate_education`. -/
def eduItems (l : List Education) : List Tex :=
  [Tex.sec "Education"
    (generate_section_title "Education" ++
     (l.map fun e => entryItems (eduGen e)).flatten)]

theorem generate_education_eq (l : List Education) :
    generate_education l = Except.ok (eduItems l) := by
  unfold generate_education eduItems
  rw [mapM_map _ (fun e => entryItems (eduGen e))
    (fun e => EntryGenerator.generate_eq (eduGen e)) l]
  rfl

/-- Pure value of `generate_experience`. -/
def expItems (l : List Work) : List Tex :=
  [Tex.sec "Experience"
    (generate_section_title "Experience" ++
     (l.map fun w => entryItems (workGen w)).flatten)]

theorem generate_experience_eq (l : List Work) :
    generate_experience l = Except.ok (expItems l) := by
  unfold generate_experience expItems
  rw [mapM_map _ (fun w => entryItems (workGen w))
    (fun w => EntryGenerator.generate_eq (workGen w)) l]
  rfl

/-- Pure value of `generate_projects`. -/
def projItems (l : List Project) : List Tex :=
  [Tex.sec "Projects"
    (generate_section_title "Projects" ++
     (l.map fun p => entryItems (projGen p)).flatten)]

theorem generate_projects_eq (l : List Project) :
    generate_projects l = Except.ok (projItems l) := by
  unfold generate_projects projItems
  rw [mapM_map _ (fun p => entryItems (projGen p))
    (fun p => EntryGenerator.generate_eq (projGen p)) l]
  rfl

/-- The section title string the source selects (note the inverted check in
main.py: an *absent* certificates list selects "Certifications"). -/
def certAwardsTitle :
    Option (List Certificate) → Option (List Award) → String
  | none, _ => "Certifications"
  | some _, none => "Awards"
  | some _, some _ => "Certifications & Awards"

/-- Pure value of `generate_certifications_and_awards`. -/
def certAwardsItems (c : Option (List Certificate)) (a : Option (List Award)) :
    List Tex :=
  [Tex.sec "Certifications & Awards"
    (generate_section_title (certAwardsTitle c a) ++
     (((c.getD []).map fun x => entryItems (certGen x)) ++
      ((a.getD []).map fun x => entryItems (awardGen x))).flatten)]

theorem certAward_generate_eq (item : Certificate ⊕ Award) :
    (match item with
     | Sum.inl x => (certGen x).generate
     | Sum.inr x => (awardGen x).generate) =
    Except.ok
      (match item with
       | Sum.inl x => entryItems (certGen x)
       | Sum.inr x => entryItems (awardGen x)) := by
  cases item <;> exact EntryGenerator.generate_eq _

theorem generate_certifications_and_awards_eq
    (c : Option (List Certificate)) (a : Option (List Award)) :
    generate_certifications_and_awards c a = Except.ok (certAwardsItems c a) := by
  unfold generate_certifications_and_awards certAwardsItems
  cases c <;> cases a <;>
    simp [mapM_loop_eq _ _ certAward_generate_eq, certAwardsTitle,
      List.map_append, List.map_map, Function.comp_def]

/-- Pure value of the single cell `format_profile` produces. -/
def profileCell (profile : Profile) : Tex :=
  Tex.cmd "href"
    [profile.url,
     (generate_image_inline (resourceGet
        (if RESOURCE_MAP_keys.contains (pyLower (pyStrip profile.network)) then
           pyLower (pyStrip profile.network)
         else "web"))).dumps ++
       " " ++ (profile.network ++ "/" ++ profile.username)]

theorem format_profile_eq (p : Profile) :
    format_profile (some p) = Except.ok (profileCell p) := rfl

/-- Pure value of `generate_profiles`. -/
def profilesItems (r : Resume) : List Tex :=
  match r.basics.profiles with
  | none => []
  | some profiles =>
    [Tex.tabular (strJoin " | " (List.replicate profiles.length "c"))
      (profiles.map profileCell)]

theorem generate_profiles_eq (r : Resume) :
    generate_profiles r = Except.ok (profilesItems r) := by
  unfold generate_profiles profilesItems
  cases r.basics.profiles with
  | none => rfl
  | some ps => simp [mapM_loop_eq _ profileCell format_profile_eq]

/-- Pure value of `generate_contact_info`, given the formatted location. -/
def contactRow (resume : Resume) (loc : String) : List Tex :=
  [Tex.tabular "c | c | c"
    [Tex.noescape
       ((generate_image_inline (resourceGet "phone")).dumps ++ " " ++
        resume.basics.phone),
     Tex.noescape
       ((generate_image_inline (resourceGet "mail")).dumps ++ " " ++
        (PyCommand.dumps
          { name := "href"
            arguments := ["mailto:" ++ resume.basics.email,
                          resume.basics.email] })),
     Tex.noescape
       ((generate_image_inline (resourceGet "home")).dumps ++ " " ++ loc)]]

theorem generate_contact_info_eq (r : Resume) (l : Location)
    (h : r.basics.location = some l) :
    generate_contact_info r = Except.ok (contactRow r (l.city ++ ", " ++ l.region)) := by
  unfold generate_contact_info contactRow
  rw [h]; rfl

theorem generate_contact_info_none (r : Resume)
    (h : r.basics.location = none) :
    generate_contact_info r = Except.error () := by
  unfold generate_contact_info
  rw [h]; rfl

/-- Pure value of `generate_header`, given the formatted location. -/
def headerItems (r : Resume) (loc : String) : List Tex :=
  [Tex.cmd "makecvtitle" []] ++
  [Tex.center
    ([Tex.huge [Tex.cmd "textbf" [r.basics.name]], Tex.cmd "break" []] ++
     contactRow r loc ++ [Tex.cmd "break" []] ++ profilesItems r)]

theorem generate_header_eq (r : Resume) (l : Location)
    (h : r.basics.location = some l) :
    generate_header r = Except.ok (headerItems r (l.city ++ ", " ++ l.region)) := by
  unfold generate_header headerItems
  rw [generate_contact_info_eq r l h, generate_profiles_eq]; rfl

theorem generate_header_none (r : Resume) (h : r.basics.location = none) :
    generate_header r = Except.error () := by
  unfold generate_header
  rw [generate_contact_info_none r h]; rfl

/-- Pure value of `generate_body`. -/
def bodyItems (r : Resume) : List Tex :=
  (match r.education with
   | some l => eduItems l
   | none => []) ++
  (match r.work with
   | some l => expItems l
   | none => []) ++
  (match r.projects with
   | some l => projItems l
   | none => []) ++
  (if r.certificates.isSome || r.awards.isSome then
     certAwardsItems r.certificates r.awards
   else []) ++
  (match r.skills with
   | some l => generate_skills l
   | none => [])

theorem generate_body_eq (r : Resume) :
    generate_body r = Except.ok (bodyItems r) := by
  obtain ⟨b, w, e, c, a, s, lg, it, p⟩ := r
  unfold generate_body bodyItems
  cases e <;> cases w <;> cases p <;> cases c <;> cases a <;> cases s <;>
    simp [generate_education_eq, generate_experience_eq, generate_projects_eq,
      generate_certifications_and_awards_eq] <;> rfl

/-- Pure value of `generate_doc`, given the formatted location. -/
def docFor (r : Resume) (loc : String) : Document :=
  { preamble := [Tex.cmd "moderncvstyle" ["empty"],
                 Tex.cmd "moderncvcolor" ["black"],
                 Tex.cmd "name" (pySplitWs r.basics.name)]
    body := headerItems r loc ++ bodyItems r }

theorem generate_doc_eq (r : Resume) (l : Location)
    (h : r.basics.location = some l) :
    generate_doc r = Except.ok (docFor r (l.city ++ ", " ++ l.region)) := by
  unfold generate_doc docFor
  rw [generate_header_eq r l h, generate_body_eq]; rfl

theorem generate_doc_none (r : Resume) (h : r.basics.location = none) :
    generate_doc r = Except.error () := by
  unfold generate_doc
  rw [generate_header_none r h]; rfl

/-! ### Occurrence of input data in the emitted document -/

/-- The text `v` occurs contiguously inside one of the strings `strs`. -/
def Appears (v : String) (strs : List String) : Prop :=
  ∃ s ∈ strs, v.toList <:+: s.toList

theorem appears_of_mem {v : String} {S : List String} (h : v ∈ S) :
    Appears v S :=
  ⟨v, h, List.infix_rfl⟩

theorem appears_of_inf {v w : String} {S : List String}
    (hvw : v.toList <:+: w.toList) (h : w ∈ S) : Appears v S :=
  ⟨w, h, hvw⟩

theorem Appears.sub {v : String} {S T : List String} (hST : S ⊆ T) :
    Appears v S → Appears v T
  | ⟨s, hs, hv⟩ => ⟨s, hST hs, hv⟩

theorem appears_append_left {v : String} {S T : List String}
    (h : Appears v S) : Appears v (S ++ T) :=
  h.sub (List.subset_append_left S T)

theorem appears_append_right {v : String} {S T : List String}
    (h : Appears v T) : Appears v (S ++ T) :=
  h.sub (List.subset_append_right S T)

theorem toList_append (s t : String) :
    (s ++ t).toList = s.toList ++ t.toList := rfl

theorem strPrefixPart (a b : String) : a.toList <:+: (a ++ b).toList := by
  rw [toList_append]; exact (List.prefix_append _ _).isInfix

theorem strSuffixPart (a b : String) : b.toList <:+: (a ++ b).toList := by
  rw [toList_append]; exact (List.suffix_append _ _).isInfix

theorem inf_str_left {v w : String} (a : String)
    (h : v.toList <:+: w.toList) : v.toList <:+: (a ++ w).toList :=
  h.trans (strSuffixPart a w)

theorem inf_str_right {v w : String} (b : String)
    (h : v.toList <:+: w.toList) : v.toList <:+: (w ++ b).toList :=
  h.trans (strPrefixPart w b)

/-- Every member of a joined list occurs in the join. -/
theorem strJoin_inf {x : String} (sep : String) :
    ∀ l : List String, x ∈ l → x.toList <:+: (strJoin sep l).toList
  | [a], h => by
      rcases List.mem_singleton.mp h with rfl
      exact List.infix_rfl
  | a :: b :: t, h => by
      rcases List.mem_cons.mp h with rfl | h2
      · exact inf_str_right _ (strPrefixPart _ _)
      · exact (strJoin_inf sep (b :: t) h2).trans
          (strSuffixPart (a ++ sep) (strJoin sep (b :: t)))

/-- The formatted start date is always part of the formatted time range. -/
theorem format_date_start_inf (s : Date) (e : Option Date) (b : Bool) :
    (format_date s).toList <:+: (format_time_range s e b).toList := by
  unfold format_time_range
  cases b with
  | true => simp
  | false =>
      simp only [Bool.false_eq_true, if_false]
      cases e with
      | none => exact strPrefixPart _ _
      | some d => exact inf_str_right _ (strPrefixPart _ _)

theorem texsStrings_map_text (l : List String) :
    texsStrings (l.map Tex.text) = l := by
  induction l with
  | nil => rfl
  | cons a t ih => simp [texsStrings, texStrings, ih]

/-- A string occurring in a member's chunk occurs in the flattened map. -/
theorem appears_flatten_of_mem {v : String} {α : Type} (f : α → List String)
    (l : List α) (x : α) (hx : x ∈ l) (h : Appears v (f x)) :
    Appears v (l.map f).flatten := by
  rcases h with ⟨s, hs, hi⟩
  exact ⟨s, List.mem_flatten.mpr ⟨f x, List.mem_map_of_mem f hx, hs⟩, hi⟩

/-! Entry-level occurrence lemmas: what `EntryGenerator.generate` always
emits of its configuration. -/

theorem entry_title_appears (g : EntryGenerator) :
    Appears g.title (texsStrings (entryItems g)) := by
  refine appears_of_mem ?_
  simp [entryItems, texsStrings_append, texsStrings, texStrings]

theorem entry_time_appears (g : EntryGenerator) :
    Appears (format_time_range g.start_date g.end_date g.is_instant)
      (texsStrings (entryItems g)) := by
  refine appears_of_mem ?_
  simp [entryItems, texsStrings_append, texsStrings, texStrings]

theorem entry_startdate_appears (g : EntryGenerator) :
    Appears (format_date g.start_date) (texsStrings (entryItems g)) := by
  rcases entry_time_appears g with ⟨s, hs, hi⟩
  exact ⟨s, hs, (format_date_start_inf g.start_date g.end_date g.is_instant).trans hi⟩

theorem entry_context_appears (g : EntryGenerator) (c : String)
    (h : g.context = some c) : Appears c (texsStrings (entryItems g)) := by
  refine appears_of_mem ?_
  simp [entryItems, h, texsStrings_append, texsStrings, texStrings]

theorem entry_summary_appears (g : EntryGenerator) (s : String)
    (h : g.summary = some s) : Appears s (texsStrings (entryItems g)) := by
  refine appears_of_mem ?_
  simp [entryItems, h, texsStrings_append, texsStrings, texStrings]

theorem entry_highlight_appears (g : EntryGenerator) (hs : List String)
    (h : g.highlights = some hs) (x : String) (hx : x ∈ hs) :
    Appears x (texsStrings (entryItems g)) := by
  refine appears_of_mem ?_
  simp [entryItems, h, texsStrings_append, texsStrings, texStrings,
    texsStrings_map_text]
  cases g.summary <;> simp [texsStrings_append, texsStrings, texStrings,
    texsStrings_map_text] <;> tauto

theorem entry_location_appears (g : EntryGenerator) (l : Location)
    (h : g.location = some l) :
    Appears (l.city ++ ", " ++ l.region) (texsStrings (entryItems g)) := by
  refine appears_of_mem ?_
  simp [entryItems, h, texsStrings_append, texsStrings, texStrings]

/-! Header- and body-level occurrence lemmas. -/

theorem texsStrings_map {α : Type} (f : α → Tex) (l : List α) :
    texsStrings (l.map f) = (l.map fun x => texStrings (f x)).flatten := by
  induction l with
  | nil => rfl
  | cons a t ih => simp [texsStrings, ih]

/-- The phone cell of the contact table. -/
def phoneCellStr (r : Resume) : String :=
  (generate_image_inline (resourceGet "phone")).dumps ++ " " ++ r.basics.phone

/-- The email cell of the contact table. -/
def mailCellStr (r : Resume) : String :=
  (generate_image_inline (resourceGet "mail")).dumps ++ " " ++
    PyCommand.dumps
      { name := "href"
        arguments := ["mailto:" ++ r.basics.email, r.basics.email] }

/-- The home-location cell of the contact table. -/
def homeCellStr (_r : Resume) (loc : String) : String :=
  (generate_image_inline (resourceGet "home")).dumps ++ " " ++ loc

theorem texsStrings_headerItems (r : Resume) (loc : String) :
    texsStrings (headerItems r loc) =
      [r.basics.name, phoneCellStr r, mailCellStr r, homeCellStr r loc] ++
        texsStrings (profilesItems r) := by
  simp [headerItems, contactRow, phoneCellStr, mailCellStr, homeCellStr,
    texsStrings, texStrings, texsStrings_append]

theorem header_name_appears (r : Resume) (loc : String) :
    Appears r.basics.name (texsStrings (headerItems r loc)) := by
  refine appears_of_mem ?_
  rw [texsStrings_headerItems]
  simp

theorem header_phone_appears (r : Resume) (loc : String) :
    Appears r.basics.phone (texsStrings (headerItems r loc)) := by
  refine ⟨phoneCellStr r, ?_, ?_⟩
  · rw [texsStrings_headerItems]; simp
  · exact strSuffixPart _ r.basics.phone

theorem email_in_mailCell (r : Resume) :
    r.basics.email.toList <:+: (mailCellStr r).toList := by
  show r.basics.email.toList <:+:
    (((generate_image_inline (resourceGet "mail")).dumps ++ " ") ++
      ((("\\" ++ "href") ++ "") ++
        (("" ++ (("\x7b" ++ ("mailto:" ++ r.basics.email)) ++ "\x7d")) ++
          (("\x7b" ++ r.basics.email) ++ "\x7d")))).toList
  exact inf_str_left _ (inf_str_left _ (inf_str_left _
    (inf_str_right _ (inf_str_left _ List.infix_rfl))))

theorem header_email_appears (r : Resume) (loc : String) :
    Appears r.basics.email (texsStrings (headerItems r loc)) := by
  refine ⟨mailCellStr r, ?_, email_in_mailCell r⟩
  rw [texsStrings_headerItems]
  simp

theorem header_homeloc_appears (r : Resume) (loc : String) :
    Appears loc (texsStrings (headerItems r loc)) := by
  refine ⟨homeCellStr r loc, ?_, ?_⟩
  · rw [texsStrings_headerItems]; simp
  · exact strSuffixPart _ loc

theorem header_profiles_appears (r : Resume) (loc : String) {v : String}
    (hv : Appears v (texsStrings (profilesItems r))) :
    Appears v (texsStrings (headerItems r loc)) := by
  rw [texsStrings_headerItems]
  exact appears_append_right hv

theorem profile_cell_appears (r : Resume) (ps : List Profile)
    (hp : r.basics.profiles = some ps) (p : Profile) (hmem : p ∈ ps)
    {v : String} (hv : Appears v (texStrings (profileCell p))) :
    Appears v (texsStrings (profilesItems r)) := by
  unfold profilesItems
  rw [hp]
  show Appears v (texsStrings [Tex.tabular _ (ps.map profileCell)])
  have h1 : texsStrings [Tex.tabular
      (strJoin " | " (List.replicate ps.length "c")) (ps.map profileCell)] =
      texsStrings (ps.map profileCell) := by
    simp [texsStrings, texStrings]
  rw [h1, texsStrings_map]
  exact appears_flatten_of_mem _ ps p hmem hv

theorem profile_url_appears (p : Profile) :
    Appears p.url (texStrings (profileCell p)) := by
  refine appears_of_mem ?_
  simp [profileCell, texStrings]

/-- The icon-plus-link text of a profile cell. -/
def profileLinkStr (p : Profile) : String :=
  (generate_image_inline (resourceGet
     (if RESOURCE_MAP_keys.contains (pyLower (pyStrip p.network)) then
        pyLower (pyStrip p.network)
      else "web"))).dumps ++
    " " ++ (p.network ++ "/" ++ p.username)

theorem texStrings_profileCell (p : Profile) :
    texStrings (profileCell p) = [p.url, profileLinkStr p] := rfl

theorem profile_network_appears (p : Profile) :
    Appears p.network (texStrings (profileCell p)) := by
  refine ⟨profileLinkStr p, ?_, ?_⟩
  · rw [texStrings_profileCell]; simp
  · exact inf_str_left _ (inf_str_right _ (strPrefixPart p.network "/"))

theorem profile_username_appears (p : Profile) :
    Appears p.username (texStrings (profileCell p)) := by
  refine ⟨profileLinkStr p, ?_, ?_⟩
  · rw [texStrings_profileCell]; simp
  · exact inf_str_left _ (strSuffixPart (p.network ++ "/") p.username)

theorem texsStrings_bodyItems (r : Resume) :
    texsStrings (bodyItems r) =
      texsStrings (match r.education with
        | some l => eduItems l
        | none => []) ++
      texsStrings (match r.work with
        | some l => expItems l
        | none => []) ++
      texsStrings (match r.projects with
        | some l => projItems l
        | none => []) ++
      texsStrings (if r.certificates.isSome || r.awards.isSome then
          certAwardsItems r.certificates r.awards
        else []) ++
      texsStrings (match r.skills with
        | some l => generate_skills l
        | none => []) := by
  unfold bodyItems
  rw [texsStrings_append, texsStrings_append, texsStrings_append,
    texsStrings_append]

theorem body_edu_appears (r : Resume) (l : List Education)
    (h : r.education = some l) {v : String}
    (hv : Appears v (texsStrings (eduItems l))) :
    Appears v (texsStrings (bodyItems r)) := by
  rw [texsStrings_bodyItems, h]
  exact appears_append_left (appears_append_left (appears_append_left
    (appears_append_left hv)))

theorem body_work_appears (r : Resume) (l : List Work)
    (h : r.work = some l) {v : String}
    (hv : Appears v (texsStrings (expItems l))) :
    Appears v (texsStrings (bodyItems r)) := by
  rw [texsStrings_bodyItems, h]
  exact appears_append_left (appears_append_left (appears_append_left
    (appears_append_right hv)))

theorem body_proj_appears (r : Resume) (l : List Project)
    (h : r.projects = some l) {v : String}
    (hv : Appears v (texsStrings (projItems l))) :
    Appears v (texsStrings (bodyItems r)) := by
  rw [texsStrings_bodyItems, h]
  exact appears_append_left (appears_append_left (appears_append_right hv))

theorem body_cert_appears (r : Resume)
    (h : r.certificates ≠ none ∨ r.awards ≠ none) {v : String}
    (hv : Appears v (texsStrings (certAwardsItems r.certificates r.awards))) :
    Appears v (texsStrings (bodyItems r)) := by
  rw [texsStrings_bodyItems]
  refine appears_append_left (appears_append_right ?_)
  have hcond : (r.certificates.isSome || r.awards.isSome) = true := by
    rcases h with h | h <;> cases hc : r.certificates <;> cases ha : r.awards <;>
      simp_all
  rw [hcond]
  simpa using hv

theorem body_skills_appears (r : Resume) (l : List Skill)
    (h : r.skills = some l) {v : String}
    (hv : Appears v (texsStrings (generate_skills l))) :
    Appears v (texsStrings (bodyItems r)) := by
  rw [texsStrings_bodyItems, h]
  exact appears_append_right hv

/-! Section-level occurrence lemmas. -/

theorem sec_entry_appears {α : Type} (name : String) (gen : α → EntryGenerator)
    (l : List α) (x : α) (hx : x ∈ l) {v : String}
    (hv : Appears v (texsStrings (entryItems (gen x)))) :
    Appears v (texsStrings [Tex.sec name
      (generate_section_title name ++
       (l.map fun e => entryItems (gen e)).flatten)]) := by
  have h1 : texsStrings [Tex.sec name
      (generate_section_title name ++
       (l.map fun e => entryItems (gen e)).flatten)] =
      texsStrings (generate_section_title name) ++
        texsStrings (l.map fun e => entryItems (gen e)).flatten := by
    simp [texsStrings, texStrings, texsStrings_append]
  rw [h1, texsStrings_flatten, List.map_map]
  exact appears_append_right (appears_flatten_of_mem _ l x hx hv)

theorem edu_entry_appears (l : List Education) (e : Education) (he : e ∈ l)
    {v : String} (hv : Appears v (texsStrings (entryItems (eduGen e)))) :
    Appears v (texsStrings (eduItems l)) :=
  sec_entry_appears "Education" eduGen l e he hv

theorem work_entry_appears (l : List Work) (w : Work) (hw : w ∈ l)
    {v : String} (hv : Appears v (texsStrings (entryItems (workGen w)))) :
    Appears v (texsStrings (expItems l)) :=
  sec_entry_appears "Experience" workGen l w hw hv

theorem proj_entry_appears (l : List Project) (p : Project) (hp : p ∈ l)
    {v : String} (hv : Appears v (texsStrings (entryItems (projGen p)))) :
    Appears v (texsStrings (projItems l)) :=
  sec_entry_appears "Projects" projGen l p hp hv

theorem certAwards_cert_appears (c : Option (List Certificate))
    (a : Option (List Award)) (cl : List Certificate) (h : c = some cl)
    (x : Certificate) (hx : x ∈ cl) {v : String}
    (hv : Appears v (texsStrings (entryItems (certGen x)))) :
    Appears v (texsStrings (certAwardsItems c a)) := by
  subst h
  have h1 : texsStrings (certAwardsItems (some cl) a) =
      texsStrings (generate_section_title (certAwardsTitle (some cl) a)) ++
        (texsStrings ((cl.map fun y => entryItems (certGen y)).flatten) ++
         texsStrings (((a.getD []).map fun y => entryItems (awardGen y)).flatten)) := by
    simp [certAwardsItems, texsStrings, texStrings, texsStrings_append,
      List.flatten_append]
  rw [h1, texsStrings_flatten, List.map_map]
  exact appears_append_right (appears_append_left
    (appears_flatten_of_mem _ cl x hx hv))

theorem certAwards_award_appears (c : Option (List Certificate))
    (a : Option (List Award)) (al : List Award) (h : a = some al)
    (x : Award) (hx : x ∈ al) {v : String}
    (hv : Appears v (texsStrings (entryItems (awardGen x)))) :
    Appears v (texsStrings (certAwardsItems c a)) := by
  subst h
  have h1 : texsStrings (certAwardsItems c (some al)) =
      texsStrings (generate_section_title (certAwardsTitle c (some al))) ++
        (texsStrings (((c.getD []).map fun y => entryItems (certGen y)).flatten) ++
         texsStrings ((al.map fun y => entryItems (awardGen y)).flatten)) := by
    simp [certAwardsItems, texsStrings, texStrings, texsStrings_append,
      List.flatten_append]
  rw [h1]
  refine appears_append_right (appears_append_right ?_)
  rw [texsStrings_flatten, List.map_map]
  exact appears_flatten_of_mem _ al x hx hv

theorem texsStrings_skillLine (s : Skill) :
    texsStrings (skillLine s) = [s.name, ": ", strJoin ", " s.keywords] := rfl

theorem skill_line_appears (l : List Skill) (s : Skill) (hs : s ∈ l)
    {v : String} (hv : Appears v (texsStrings (skillLine s))) :
    Appears v (texsStrings (generate_skills l)) := by
  have h1 : texsStrings (generate_skills l) =
      texsStrings (generate_section_title "Skills") ++
        texsStrings (l.map skillLine).flatten := by
    simp [generate_skills, texsStrings, texStrings, texsStrings_append]
  rw [h1, texsStrings_flatten, List.map_map]
  exact appears_append_right (appears_flatten_of_mem _ l s hs hv)

theorem skill_name_appears (s : Skill) :
    Appears s.name (texsStrings (skillLine s)) := by
  refine appears_of_mem ?_
  rw [texsStrings_skillLine]; simp

theorem skill_keyword_appears (s : Skill) (k : String) (hk : k ∈ s.keywords) :
    Appears k (texsStrings (skillLine s)) := by
  refine ⟨strJoin ", " s.keywords, ?_, strJoin_inf ", " s.keywords hk⟩
  rw [texsStrings_skillLine]; simp

/-- The synthesized multi-line education summary of `generate_education`. -/
def eduSummaryStr (education : Education) : String :=
  strJoin "\n"
    ["Area of study: " ++ education.area,
     "Concentration: " ++ pystr education.sub_area,
     "Final result: " ++ pystr education.score,
     "Relevant coursework: " ++ strJoin ", " education.courses]

theorem eduGen_summary (e : Education) :
    (eduGen e).summary = some (eduSummaryStr e) := rfl

theorem edu_area_inf (e : Education) :
    e.area.toList <:+: (eduSummaryStr e).toList :=
  (strSuffixPart "Area of study: " e.area).trans
    (strJoin_inf "\n" _ (by simp))

theorem edu_course_inf (e : Education) (x : String) (hx : x ∈ e.courses) :
    x.toList <:+: (eduSummaryStr e).toList :=
  ((strJoin_inf ", " e.courses hx).trans
    (strSuffixPart "Relevant coursework: " (strJoin ", " e.courses))).trans
    (strJoin_inf "\n" _ (by simp))

/-! ### Claims -/

/-- C6: `format_time_range` returns the start date alone (as "MM/YYYY") when
`is_instant` is true — independently of the end date, so two calls differing
only in the end give the same string; with no end date it returns
"{start} - present"; with an end date it returns "{start} - {end}".  It is a
pure function (equal inputs trivially give equal outputs in this embedding)
and performs no start ≤ end check: every combination of dates is formatted. -/
theorem c6_format_time_range_cases :
    (∀ (s : Date) (e : Option Date), format_time_range s e true = format_date s) ∧
    (∀ s : Date, format_time_range s none false = format_date s ++ " - present") ∧
    (∀ (s e : Date), format_time_range s (some e) false =
      format_date s ++ " - " ++ format_date e) ∧
    (∀ (s : Date) (e1 e2 : Option Date),
      format_time_range s e1 true = format_time_range s e2 true) :=
  ⟨fun _ e => by cases e <;> rfl, fun _ => rfl, fun _ _ => rfl,
   fun _ e1 e2 => by cases e1 <;> cases e2 <;> rfl⟩

/-- C8: `format_location` fails (the Python `raise RuntimeError()`) exactly on
an absent location, and on every present location returns "{city}, {region}". -/
theorem c8_format_location_spec :
    format_location none = Except.error () ∧
    ∀ l : Location,
      format_location (some l) = Except.ok (l.city ++ ", " ++ l.region) :=
  ⟨rfl, fun _ => rfl⟩

/-- C3: for every Resume whose `basics.location` is absent (legal, since the
field is optional), document assembly errors out: `generate_header`
unconditionally routes `basics.location` into `format_location` via the
contact-info table, which raises on an absent location. -/
theorem c3_absent_location_errors (r : Resume)
    (h : r.basics.location = none) :
    generate_doc r = Except.error () :=
  generate_doc_none r h

/-- Concrete resume with no location, for the C3 witness. -/
def resumeNoLoc : Resume :=
  { basics :=
    { name := "Jane Doe", label := none, email := "jane@example.com",
      phone := "555-0100", url := none, summary := none,
      location := none, profiles := none } }

theorem c3_absent_location_errors_witness :
    generate_doc resumeNoLoc = Except.error () :=
  c3_absent_location_errors resumeNoLoc rfl

/-- C7: profile formatting never raises for a present profile, whatever the
network string; when the stripped, lowercased network is not a key of
`RESOURCE_MAP`, the cell uses the generic web icon `resources/web.png`. -/
theorem c7_unknown_network_web_icon (p : Profile) :
    (∃ t : Tex, format_profile (some p) = Except.ok t) ∧
    (RESOURCE_MAP_keys.contains (pyLower (pyStrip p.network)) = false →
      format_profile (some p) = Except.ok (Tex.cmd "href"
        [p.url,
         (generate_image_inline "resources/web.png").dumps ++ " " ++
           (p.network ++ "/" ++ p.username)])) := by
  constructor
  · exact ⟨profileCell p, format_profile_eq p⟩
  · intro h
    rw [format_profile_eq p]
    unfold profileCell
    rw [h]
    rfl

/-- Unknown-network profile for the C7 witness. -/
def mastodonProfile : Profile :=
  { network := "mastodon", username := "jane",
    url := "https://example.com/@jane" }

theorem c7_unknown_network_web_icon_witness :
    format_profile (some mastodonProfile) = Except.ok (Tex.cmd "href"
      [mastodonProfile.url,
       (generate_image_inline "resources/web.png").dumps ++ " " ++
         (mastodonProfile.network ++ "/" ++ mastodonProfile.username)]) :=
  (c7_unknown_network_web_icon mastodonProfile).2 (by decide)

/-- C9: the `languages` and `interests` lists never influence the output —
two resumes agreeing on every other field produce identical documents. -/
theorem c9_languages_interests_no_influence (r1 r2 : Resume)
    (hb : r1.basics = r2.basics) (hw : r1.work = r2.work)
    (he : r1.education = r2.education)
    (hc : r1.certificates = r2.certificates) (ha : r1.awards = r2.awards)
    (hs : r1.skills = r2.skills) (hp : r1.projects = r2.projects) :
    generate_doc r1 = generate_doc r2 := by
  obtain ⟨b1, w1, e1, c1, a1, s1, lg1, it1, p1⟩ := r1
  obtain ⟨b2, w2, e2, c2, a2, s2, lg2, it2, p2⟩ := r2
  simp only [Resume.mk.injEq] at hb hw he hc ha hs hp ⊢
  subst hb hw he hc ha hs hp
  rfl

/-- Two concrete resumes differing only in languages and interests, for the
C9 witness. -/
def resumeLangA : Resume :=
  { basics :=
    { name := "Jane Doe", label := none, email := "jane@example.com",
      phone := "555-0100", url := none, summary := none,
      location := some { city := "Springfield", country_code := "US",
                         region := "IL" },
      profiles := none }
    languages := some [{ language := "French", fluency := "B2" }] }

def resumeLangB : Resume :=
  { basics :=
    { name := "Jane Doe", label := none, email := "jane@example.com",
      phone := "555-0100", url := none, summary := none,
      location := some { city := "Springfield", country_code := "US",
                         region := "IL" },
      profiles := none }
    interests := some [{ name := "Chess", keywords := ["openings"] }] }

theorem c9_languages_interests_no_influence_witness :
    generate_doc resumeLangA = generate_doc resumeLangB :=
  c9_languages_interests_no_influence resumeLangA resumeLangB
    rfl rfl rfl rfl rfl rfl rfl

/-- The text of every section title emitted via `generate_section_title`
(a `LargeText` wrapping a `\textbf`), in order. -/
def largeTitles : List Tex → List String
  | [] => []
  | Tex.large [Tex.cmd c [s]] :: rest =>
      (if c = "textbf" then [s] else []) ++ largeTitles rest
  | _ :: rest => largeTitles rest

/-- The `Section` environments of a node list with their rendered titles. -/
def sectionTitlesIn : List Tex → List (String × List String)
  | [] => []
  | Tex.sec n ts :: rest => (n, largeTitles ts) :: sectionTitlesIn rest
  | _ :: rest => sectionTitlesIn rest

/-- Concrete certificate for the C1 evaluation. -/
def awsCert : Certificate :=
  { name := "AWS", date := { year := 2021, month := 6, day := 1 },
    issuer := "Amazon", summary := "Cloud certification" }

/-- Concrete award for the C1 evaluation. -/
def posterAward : Award :=
  { name := "Best Poster", date := { year := 2022, month := 3, day := 5 },
    awarder := "ACM", summary := "Poster award" }

/-- C1 (code bug): with a certificates list present and awards absent, the
source's inverted `if certifications is None` check makes the emitted section
title "Awards", not the "Certifications" the spec requires (and symmetrically
"Certifications" when only awards are present). -/
theorem c1_certs_only_title_is_awards :
    generate_certifications_and_awards (some [awsCert]) none =
      Except.ok (certAwardsItems (some [awsCert]) none) ∧
    sectionTitlesIn (certAwardsItems (some [awsCert]) none) =
      [("Certifications & Awards", ["Awards"])] ∧
    generate_certifications_and_awards none (some [posterAward]) =
      Except.ok (certAwardsItems none (some [posterAward])) ∧
    sectionTitlesIn (certAwardsItems none (some [posterAward])) =
      [("Certifications & Awards", ["Certifications"])] :=
  ⟨generate_certifications_and_awards_eq _ _, by decide,
   generate_certifications_and_awards_eq _ _, by decide⟩

/-- The bold strings of a node list, in order.  In the certifications/awards
section every entry contributes exactly its name (entries there carry no
location, the only other source of bold text). -/
def boldStrings : List Tex → List String
  | [] => []
  | Tex.bold s :: rest => s :: boldStrings rest
  | _ :: rest => boldStrings rest

theorem boldStrings_append (a b : List Tex) :
    boldStrings (a ++ b) = boldStrings a ++ boldStrings b := by
  induction a with
  | nil => rfl
  | cons t ts ih => cases t <;> simp [boldStrings, ih]

theorem boldStrings_flatten_map {α : Type} (f : α → List Tex) (g : α → String)
    (h : ∀ x, boldStrings (f x) = [g x]) (l : List α) :
    boldStrings (l.map f).flatten = l.map g := by
  induction l with
  | nil => rfl
  | cons a t ih => simp [List.flatten_cons, boldStrings_append, h a, ih]

theorem boldStrings_certEntry (x : Certificate) :
    boldStrings (entryItems (certGen x)) = [x.name] := rfl

theorem boldStrings_awardEntry (x : Award) :
    boldStrings (entryItems (awardGen x)) = [x.name] := rfl

/-- C5: when both lists are present, the rendered sequence of the
certifications & awards section is all certificates in input order followed
by all awards in input order — concatenation, never a date-based merge. -/
theorem c5_certs_before_awards (certs : List Certificate)
    (aws : List Award) :
    generate_certifications_and_awards (some certs) (some aws) =
      Except.ok [Tex.sec "Certifications & Awards"
        (generate_section_title "Certifications & Awards" ++
         ((certs.map fun x => entryItems (certGen x)) ++
          (aws.map fun x => entryItems (awardGen x))).flatten)] ∧
    boldStrings
      (generate_section_title "Certifications & Awards" ++
       ((certs.map fun x => entryItems (certGen x)) ++
        (aws.map fun x => entryItems (awardGen x))).flatten) =
      certs.map Certificate.name ++ aws.map Award.name := by
  constructor
  · exact generate_certifications_and_awards_eq (some certs) (some aws)
  · rw [boldStrings_append, List.flatten_append, boldStrings_append,
      boldStrings_flatten_map _ Certificate.name boldStrings_certEntry,
      boldStrings_flatten_map _ Award.name boldStrings_awardEntry]
    rfl

/-- The names of the `Section` environments of a node list, in order. -/
def sectionNamesIn : List Tex → List String
  | [] => []
  | Tex.sec n _ :: rest => n :: sectionNamesIn rest
  | _ :: rest => sectionNamesIn rest

theorem sectionNamesIn_append (a b : List Tex) :
    sectionNamesIn (a ++ b) = sectionNamesIn a ++ sectionNamesIn b := by
  induction a with
  | nil => rfl
  | cons t ts ih => cases t <;> simp [sectionNamesIn, ih]

theorem sectionNamesIn_bodyItems (r : Resume) :
    sectionNamesIn (bodyItems r) =
      (if r.education.isSome then ["Education"] else []) ++
      (if r.work.isSome then ["Experience"] else []) ++
      (if r.projects.isSome then ["Projects"] else []) ++
      (if r.certificates.isSome || r.awards.isSome then
        ["Certifications & Awards"] else []) ++
      (if r.skills.isSome then ["Skills"] else []) := by
  obtain ⟨b, w, e, c, a, s, lg, it, p⟩ := r
  cases e <;> cases w <;> cases p <;> cases c <;> cases a <;> cases s <;>
    simp [bodyItems, eduItems, expItems, projItems, certAwardsItems,
      generate_skills, sectionNamesIn, sectionNamesIn_append]

theorem mem_if_singleton {x y : String} {b : Bool} :
    (x ∈ if b then [y] else ([] : List String)) ↔ b = true ∧ x = y := by
  cases b <;> simp

/-- C4: each of the five body sections is emitted exactly when its input
list is present (for the combined certifications & awards section: when
either of its two lists is present), independently of the other lists and
regardless of emptiness; a present-but-empty list yields the section
containing exactly its title block and zero entries. -/
theorem c4_section_gating (r : Resume) (body : List Tex)
    (h : generate_body r = Except.ok body) :
    (("Education" ∈ sectionNamesIn body) ↔ r.education ≠ none) ∧
    (("Experience" ∈ sectionNamesIn body) ↔ r.work ≠ none) ∧
    (("Projects" ∈ sectionNamesIn body) ↔ r.projects ≠ none) ∧
    (("Certifications & Awards" ∈ sectionNamesIn body) ↔
      (r.certificates ≠ none ∨ r.awards ≠ none)) ∧
    (("Skills" ∈ sectionNamesIn body) ↔ r.skills ≠ none) ∧
    (r.education = some [] →
      Tex.sec "Education" (generate_section_title "Education") ∈ body) ∧
    (r.work = some [] →
      Tex.sec "Experience" (generate_section_title "Experience") ∈ body) ∧
    (r.projects = some [] →
      Tex.sec "Projects" (generate_section_title "Projects") ∈ body) ∧
    (r.certificates = some [] ∧ r.awards = some [] →
      Tex.sec "Certifications & Awards"
        (generate_section_title "Certifications & Awards") ∈ body) ∧
    (r.skills = some [] →
      Tex.sec "Skills" (generate_section_title "Skills") ∈ body) := by
  have hbody : body = bodyItems r := by
    have h2 := ((generate_body_eq r).symm.trans h).symm
    exact (Except.ok.injEq _ _).mp h2
  subst hbody
  refine ⟨?_, ?_, ?_, ?_, ?_, ?_, ?_, ?_, ?_, ?_⟩
  · rw [sectionNamesIn_bodyItems]
    simp [mem_if_singleton, Option.isSome_iff_ne_none]
  · rw [sectionNamesIn_bodyItems]
    simp [mem_if_singleton, Option.isSome_iff_ne_none]
  · rw [sectionNamesIn_bodyItems]
    simp [mem_if_singleton, Option.isSome_iff_ne_none]
  · rw [sectionNamesIn_bodyItems]
    simp [mem_if_singleton, Option.isSome_iff_ne_none]
  · rw [sectionNamesIn_bodyItems]
    simp [mem_if_singleton, Option.isSome_iff_ne_none]
  · intro he
    simp [bodyItems, he, eduItems]
  · intro hw
    simp [bodyItems, hw, expItems]
  · intro hp
    simp [bodyItems, hp, projItems]
  · rintro ⟨hc, ha⟩
    simp [bodyItems, hc, ha, certAwardsItems, certAwardsTitle]
  · intro hs
    simp [bodyItems, hs, generate_skills]

/-- Concrete resume with an empty work list, for the C4 witness. -/
def resumeEmptyWork : Resume :=
  { basics :=
    { name := "Jane Doe", label := none, email := "jane@example.com",
      phone := "555-0100", url := none, summary := none,
      location := some { city := "Springfield", country_code := "US",
                         region := "IL" },
      profiles := none }
    work := some [] }

theorem c4_section_gating_witness :
    (("Experience" ∈ sectionNamesIn (bodyItems resumeEmptyWork)) ↔
      resumeEmptyWork.work ≠ none) ∧
    (("Education" ∈ sectionNamesIn (bodyItems resumeEmptyWork)) ↔
      resumeEmptyWork.education ≠ none) ∧
    (Tex.sec "Experience" (generate_section_title "Experience") ∈
      bodyItems resumeEmptyWork) := by
  have h := c4_section_gating resumeEmptyWork (bodyItems resumeEmptyWork)
    (generate_body_eq resumeEmptyWork)
  exact ⟨h.2.1, h.1, h.2.2.2.2.2.2.1 rfl⟩

theorem Appears.of_inf {v w : String} {S : List String}
    (hvw : v.toList <:+: w.toList) (h : Appears w S) : Appears v S := by
  rcases h with ⟨s, hs, hi⟩
  exact ⟨s, hs, hvw.trans hi⟩

/-- C10: the education summary block is synthesized and emitted
unconditionally, so an absent `sub_area` or `score` renders the literal
Python text "None" on its line. -/
theorem c10_absent_edu_fields_render_None (l : List Education) (e : Education)
    (hmem : e ∈ l) (out : List Tex)
    (h : generate_education l = Except.ok out) :
    (e.sub_area = none → Appears "Concentration: None" (texsStrings out)) ∧
    (e.score = none → Appears "Final result: None" (texsStrings out)) := by
  have hout : out = eduItems l := by
    have h2 := ((generate_education_eq l).symm.trans h).symm
    exact (Except.ok.injEq _ _).mp h2
  subst hout
  have hsum : Appears (eduSummaryStr e) (texsStrings (eduItems l)) :=
    edu_entry_appears l e hmem
      (entry_summary_appears (eduGen e) (eduSummaryStr e) (eduGen_summary e))
  constructor
  · intro hs
    have hline : ("Concentration: " ++ pystr e.sub_area).toList <:+:
        (eduSummaryStr e).toList := strJoin_inf "\n" _ (by simp)
    rw [hs] at hline
    have heq : ("Concentration: " ++ pystr none) = "Concentration: None" := by
      decide
    rw [heq] at hline
    exact Appears.of_inf hline hsum
  · intro hs
    have hline : ("Final result: " ++ pystr e.score).toList <:+:
        (eduSummaryStr e).toList := strJoin_inf "\n" _ (by simp)
    rw [hs] at hline
    have heq : ("Final result: " ++ pystr none) = "Final result: None" := by
      decide
    rw [heq] at hline
    exact Appears.of_inf hline hsum

/-- Concrete education entry with absent sub_area and score, for the C10
witness. -/
def eduNoConc : Education :=
  { institution := "State University", area := "CS", study_type := "BSc",
    start_date := { year := 2015, month := 9, day := 1 },
    courses := ["Algorithms"] }

theorem c10_absent_edu_fields_render_None_witness :
    Appears "Concentration: None" (texsStrings (eduItems [eduNoConc])) ∧
    Appears "Final result: None" (texsStrings (eduItems [eduNoConc])) := by
  have h := c10_absent_edu_fields_render_None [eduNoConc] eduNoConc (by simp)
    (eduItems [eduNoConc]) (generate_education_eq [eduNoConc])
  exact ⟨h.1 rfl, h.2 rfl⟩

theorem appears_city_of_loc {lo : Location} {S : List String}
    (h : Appears (lo.city ++ ", " ++ lo.region) S) : Appears lo.city S :=
  Appears.of_inf (inf_str_right _ (strPrefixPart lo.city ", ")) h

theorem appears_region_of_loc {lo : Location} {S : List String}
    (h : Appears (lo.city ++ ", " ++ lo.region) S) : Appears lo.region S :=
  Appears.of_inf (strSuffixPart _ _) h

/-- C2 (amended): for every resume that assembles successfully, every
required field of every entity present in the input appears — verbatim or
formatted — somewhere in the document body, EXCEPT `Certificate.issuer`,
`Award.awarder` and `Location.country_code`, which the source never reads
when rendering (see the counterexample theorem). -/
theorem c2_required_fields_appear (r : Resume) (d : Document)
    (h : generate_doc r = Except.ok d) :
    Appears r.basics.name (texsStrings d.body) ∧
    Appears r.basics.email (texsStrings d.body) ∧
    Appears r.basics.phone (texsStrings d.body) ∧
    (∀ l, r.basics.location = some l →
      Appears l.city (texsStrings d.body) ∧
      Appears l.region (texsStrings d.body)) ∧
    (∀ ps, r.basics.profiles = some ps → ∀ p ∈ ps,
      Appears p.network (texsStrings d.body) ∧
      Appears p.username (texsStrings d.body) ∧
      Appears p.url (texsStrings d.body)) ∧
    (∀ l, r.work = some l → ∀ w ∈ l,
      Appears w.name (texsStrings d.body) ∧
      Appears w.position (texsStrings d.body) ∧
      Appears (format_date w.start_date) (texsStrings d.body) ∧
      (∀ x ∈ w.highlights, Appears x (texsStrings d.body)) ∧
      (∀ lo, w.location = some lo →
        Appears lo.city (texsStrings d.body) ∧
        Appears lo.region (texsStrings d.body))) ∧
    (∀ l, r.education = some l → ∀ e ∈ l,
      Appears e.institution (texsStrings d.body) ∧
      Appears e.study_type (texsStrings d.body) ∧
      Appears e.area (texsStrings d.body) ∧
      Appears (format_date e.start_date) (texsStrings d.body) ∧
      (∀ x ∈ e.courses, Appears x (texsStrings d.body)) ∧
      (∀ lo, e.location = some lo →
        Appears lo.city (texsStrings d.body) ∧
        Appears lo.region (texsStrings d.body))) ∧
    (∀ l, r.certificates = some l → ∀ x ∈ l,
      Appears x.name (texsStrings d.body) ∧
      Appears (format_date x.date) (texsStrings d.body) ∧
      Appears x.summary (texsStrings d.body)) ∧
    (∀ l, r.awards = some l → ∀ x ∈ l,
      Appears x.name (texsStrings d.body) ∧
      Appears (format_date x.date) (texsStrings d.body) ∧
      Appears x.summary (texsStrings d.body)) ∧
    (∀ l, r.skills = some l → ∀ s ∈ l,
      Appears s.name (texsStrings d.body) ∧
      ∀ k ∈ s.keywords, Appears k (texsStrings d.body)) ∧
    (∀ l, r.projects = some l → ∀ p ∈ l,
      Appears p.name (texsStrings d.body) ∧
      Appears (format_date p.start_date) (texsStrings d.body)) := by
  cases hloc : r.basics.location with
  | none =>
      rw [generate_doc_none r hloc] at h
      exact Except.noConfusion h
  | some lo =>
      have hd : d = docFor r (lo.city ++ ", " ++ lo.region) := by
        have h2 := ((generate_doc_eq r lo hloc).symm.trans h).symm
        exact (Except.ok.injEq _ _).mp h2
      subst hd
      have hsplit : texsStrings (docFor r (lo.city ++ ", " ++ lo.region)).body =
          texsStrings (headerItems r (lo.city ++ ", " ++ lo.region)) ++
            texsStrings (bodyItems r) := texsStrings_append _ _
      rw [hsplit]
      refine ⟨?_, ?_, ?_, ?_, ?_, ?_, ?_, ?_, ?_, ?_, ?_⟩
      · exact appears_append_left (header_name_appears r _)
      · exact appears_append_left (header_email_appears r _)
      · exact appears_append_left (header_phone_appears r _)
      · intro l hl
        injection hl with hl'
        subst hl'
        exact ⟨appears_append_left (appears_city_of_loc (header_homeloc_appears r _)),
               appears_append_left (appears_region_of_loc (header_homeloc_appears r _))⟩
      · intro ps hps p hp
        refine ⟨?_, ?_, ?_⟩
        · exact appears_append_left (header_profiles_appears r _
            (profile_cell_appears r ps hps p hp (profile_network_appears p)))
        · exact appears_append_left (header_profiles_appears r _
            (profile_cell_appears r ps hps p hp (profile_username_appears p)))
        · exact appears_append_left (header_profiles_appears r _
            (profile_cell_appears r ps hps p hp (profile_url_appears p)))
      · intro l hl w hw
        refine ⟨?_, ?_, ?_, ?_, ?_⟩
        · exact appears_append_right (body_work_appears r l hl
            (work_entry_appears l w hw
              (entry_context_appears (workGen w) w.name rfl)))
        · exact appears_append_right (body_work_appears r l hl
            (work_entry_appears l w hw (entry_title_appears (workGen w))))
        · exact appears_append_right (body_work_appears r l hl
            (work_entry_appears l w hw (entry_startdate_appears (workGen w))))
        · intro x hx
          exact appears_append_right (body_work_appears r l hl
            (work_entry_appears l w hw
              (entry_highlight_appears (workGen w) w.highlights rfl x hx)))
        · intro lo2 hlo
          have hwl : (workGen w).location = some lo2 := hlo
          exact ⟨appears_append_right (body_work_appears r l hl
              (work_entry_appears l w hw (appears_city_of_loc
                (entry_location_appears (workGen w) lo2 hwl)))),
            appears_append_right (body_work_appears r l hl
              (work_entry_appears l w hw (appears_region_of_loc
                (entry_location_appears (workGen w) lo2 hwl))))⟩
      · intro l hl e he
        have hesum : Appears (eduSummaryStr e)
            (texsStrings (entryItems (eduGen e))) :=
          entry_summary_appears (eduGen e) (eduSummaryStr e) (eduGen_summary e)
        refine ⟨?_, ?_, ?_, ?_, ?_, ?_⟩
        · exact appears_append_right (body_edu_appears r l hl
            (edu_entry_appears l e he
              (entry_context_appears (eduGen e) e.institution rfl)))
        · exact appears_append_right (body_edu_appears r l hl
            (edu_entry_appears l e he (entry_title_appears (eduGen e))))
        · exact appears_append_right (body_edu_appears r l hl
            (edu_entry_appears l e he
              (Appears.of_inf (edu_area_inf e) hesum)))
        · exact appears_append_right (body_edu_appears r l hl
            (edu_entry_appears l e he (entry_startdate_appears (eduGen e))))
        · intro x hx
          exact appears_append_right (body_edu_appears r l hl
            (edu_entry_appears l e he
              (Appears.of_inf (edu_course_inf e x hx) hesum)))
        · intro lo2 hlo
          have hel : (eduGen e).location = some lo2 := hlo
          exact ⟨appears_append_right (body_edu_appears r l hl
              (edu_entry_appears l e he (appears_city_of_loc
                (entry_location_appears (eduGen e) lo2 hel)))),
            appears_append_right (body_edu_appears r l hl
              (edu_entry_appears l e he (appears_region_of_loc
                (entry_location_appears (eduGen e) lo2 hel))))⟩
      · intro l hl x hx
        have hpresent : r.certificates ≠ none ∨ r.awards ≠ none := by
          left; rw [hl]; exact Option.some_ne_none l
        refine ⟨?_, ?_, ?_⟩
        · exact appears_append_right (body_cert_appears r hpresent
            (certAwards_cert_appears r.certificates r.awards l hl x hx
              (entry_title_appears (certGen x))))
        · exact appears_append_right (body_cert_appears r hpresent
            (certAwards_cert_appears r.certificates r.awards l hl x hx
              (entry_startdate_appears (certGen x))))
        · exact appears_append_right (body_cert_appears r hpresent
            (certAwards_cert_appears r.certificates r.awards l hl x hx
              (entry_summary_appears (certGen x) x.summary rfl)))
      · intro l hl x hx
        have hpresent : r.certificates ≠ none ∨ r.awards ≠ none := by
          right; rw [hl]; exact Option.some_ne_none l
        refine ⟨?_, ?_, ?_⟩
        · exact appears_append_right (body_cert_appears r hpresent
            (certAwards_award_appears r.certificates r.awards l hl x hx
              (entry_title_appears (awardGen x))))
        · exact appears_append_right (body_cert_appears r hpresent
            (certAwards_award_appears r.certificates r.awards l hl x hx
              (entry_startdate_appears (awardGen x))))
        · exact appears_append_right (body_cert_appears r hpresent
            (certAwards_award_appears r.certificates r.awards l hl x hx
              (entry_summary_appears (awardGen x) x.summary rfl)))
      · intro l hl s hs
        refine ⟨?_, ?_⟩
        · exact appears_append_right (body_skills_appears r l hl
            (skill_line_appears l s hs (skill_name_appears s)))
        · intro k hk
          exact appears_append_right (body_skills_appears r l hl
            (skill_line_appears l s hs (skill_keyword_appears s k hk)))
      · intro l hl p hp
        refine ⟨?_, ?_⟩
        · exact appears_append_right (body_proj_appears r l hl
            (proj_entry_appears l p hp (entry_title_appears (projGen p))))
        · exact appears_append_right (body_proj_appears r l hl
            (proj_entry_appears l p hp (entry_startdate_appears (projGen p))))

instance (v : String) (strs : List String) : Decidable (Appears v strs) :=
  inferInstanceAs (Decidable (∃ s ∈ strs, v.toList <:+: s.toList))

/-- Marked certificate: the issuer value is a marker that occurs nowhere
else. -/
def certMarked : Certificate :=
  { name := "Cloud Cert", date := { year := 2021, month := 6, day := 1 },
    issuer := "ZZISSUERZZ", summary := "Passed with distinction" }

/-- Marked award: the awarder value is a marker that occurs nowhere else. -/
def awardMarked : Award :=
  { name := "Gold Star", date := { year := 2022, month := 2, day := 2 },
    awarder := "QQAWARDERQQ", summary := "For excellence" }

/-- The marked location: its country code occurs nowhere else. -/
def droppedLoc : Location :=
  { city := "Springfield", country_code := "XXCCXX", region := "IL" }

/-- Resume whose certificate issuer, award awarder and location country code
carry unique markers. -/
def resumeDropped : Resume :=
  { basics :=
    { name := "Jane Doe", label := none, email := "jane@example.com",
      phone := "555-0100", url := none, summary := none,
      location := some droppedLoc,
      profiles := none }
    certificates := some [certMarked]
    awards := some [awardMarked] }

/-- The full string content of the document assembled from `resumeDropped`. -/
def droppedDocStrs : List String :=
  texsStrings (docFor resumeDropped (droppedLoc.city ++ ", " ++ droppedLoc.region)).preamble ++
    texsStrings (docFor resumeDropped (droppedLoc.city ++ ", " ++ droppedLoc.region)).body

set_option maxHeartbeats 3200000 in
set_option maxRecDepth 8000 in
/-- C2 counterexample: the claim as stated is false — the required fields
`Certificate.issuer`, `Award.awarder` and `Location.country_code`, present in
this input, occur nowhere in the assembled output (neither preamble nor
body): the source never reads them during rendering. -/
theorem c2_issuer_awarder_country_dropped :
    generate_doc resumeDropped =
      Except.ok (docFor resumeDropped (droppedLoc.city ++ ", " ++ droppedLoc.region)) ∧
    certMarked.issuer = "ZZISSUERZZ" ∧
    awardMarked.awarder = "QQAWARDERQQ" ∧
    resumeDropped.basics.location = some droppedLoc ∧
    droppedLoc.country_code = "XXCCXX" ∧
    ¬ Appears "ZZISSUERZZ" droppedDocStrs ∧
    ¬ Appears "QQAWARDERQQ" droppedDocStrs ∧
    ¬ Appears "XXCCXX" droppedDocStrs := by
  refine ⟨generate_doc_eq resumeDropped droppedLoc rfl, rfl, rfl, rfl, rfl,
    by decide, by decide, by decide⟩

/-- Concrete work entry for the C2 witness. -/
def acmeWork : Work :=
  { name := "Acme", position := "Engineer",
    start_date := { year := 2020, month := 1, day := 1 },
    highlights := ["Shipped X"] }

/-- Concrete location for the C2 witness. -/
def fullLoc : Location :=
  { city := "Springfield", country_code := "US", region := "IL" }

/-- Concrete resume for the C2 witness. -/
def fullResume : Resume :=
  { basics :=
    { name := "Jane Doe", label := none, email := "jane@example.com",
      phone := "555-0100", url := none, summary := none,
      location := some fullLoc,
      profiles := none }
    work := some [acmeWork] }

theorem c2_required_fields_appear_witness :
    Appears "Engineer"
      (texsStrings (docFor fullResume (fullLoc.city ++ ", " ++ fullLoc.region)).body) ∧
    Appears "jane@example.com"
      (texsStrings (docFor fullResume (fullLoc.city ++ ", " ++ fullLoc.region)).body) ∧
    Appears "Shipped X"
      (texsStrings (docFor fullResume (fullLoc.city ++ ", " ++ fullLoc.region)).body) := by
  have h := c2_required_fields_appear fullResume
    (docFor fullResume (fullLoc.city ++ ", " ++ fullLoc.region))
    (generate_doc_eq fullResume fullLoc rfl)
  refine ⟨?_, h.2.1, ?_⟩
  · exact (h.2.2.2.2.2.1 [acmeWork] rfl acmeWork (by simp)).2.1
  · exact (h.2.2.2.2.2.1 [acmeWork] rfl acmeWork (by simp)).2.2.2.1
      "Shipped X" (by simp [acmeWork])

end YamlResume
